import Mathlib

set_option maxRecDepth 4000

/-!
Verification of src/list_freezones.py.

The script performs: one subprocess fetch (curl), one json.loads parse, two
header prints, one print loop over the parsed value, and one catch-all
except handler that prints an error line and exits with status 1.

Shallow embedding conventions:
- PyVal models the Python values produced by json.loads (JSON numbers are
  restricted to integers; floating-point literals are outside the model and
  are rejected by the embedded parser).
- The subprocess outcome is the input of run: Except.error models any
  raised invocation failure (launch error or non-zero exit of curl, both of
  which subprocess.check_output turns into an exception), Except.ok carries
  the captured response body.
- Console output is modelled as the list of printed lines; the process exit
  status is 0 on the success path and 1 in the except handler.
-/

/-- Python values reachable from json.loads in this program. -/
inductive PyVal where
  | pyNone
  | pyBool (b : Bool)
  | pyInt (n : Int)
  | pyStr (s : String)
  | pyList (elems : List PyVal)
  | pyDict (entries : List (String × PyVal))

/-- The opening curly brace character, written via its code point. -/
def lbrace : Char := Char.ofNat 123

/-- The closing curly brace character, written via its code point. -/
def rbrace : Char := Char.ofNat 125

/-- Decimal rendering of an integer, as Python str() renders int. -/
def intToStr (n : Int) : String := toString n

/-- One escaped character of a Python string repr, given the quote char. -/
def reprEsc (q : Char) (c : Char) : List Char :=
  if c = '\\' then ['\\', '\\']
  else if c = q then ['\\', q]
  else if c = '\n' then ['\\', 'n']
  else if c = '\r' then ['\\', 'r']
  else if c = '\t' then ['\\', 't']
  else [c]

/-- Python repr of a string: quoted, preferring single quotes, switching to
double quotes when the text holds a single quote but no double quote.
Non-printable characters beyond newline, tab and carriage return are kept
verbatim (model simplification; no claim exercises them). -/
def strRepr (s : String) : String :=
  let sq : Char := Char.ofNat 39
  let q : Char := if s.data.contains sq && !(s.data.contains '"') then '"' else sq
  String.mk (q :: s.data.foldr (fun c acc => reprEsc q c ++ acc) [q])

/-- Comma-space separated concatenation, as Python joins container items. -/
def sepComma : List String → String
  | [] => ""
  | [s] => s
  | s :: ss => s ++ ", " ++ sepComma ss

mutual

/-- Python repr of a value. -/
def pyRepr : PyVal → String
  | PyVal.pyNone => "None"
  | PyVal.pyBool b => if b then "True" else "False"
  | PyVal.pyInt n => intToStr n
  | PyVal.pyStr s => strRepr s
  | PyVal.pyList xs => "[" ++ pyReprItems xs ++ "]"
  | PyVal.pyDict kvs => "\x7b" ++ pyReprEntries kvs ++ "\x7d"

/-- Comma-separated repr of list items. -/
def pyReprItems : List PyVal → String
  | [] => ""
  | [x] => pyRepr x
  | x :: xs => pyRepr x ++ ", " ++ pyReprItems xs

/-- Comma-separated repr of dict entries. -/
def pyReprEntries : List (String × PyVal) → String
  | [] => ""
  | [kv] => strRepr kv.1 ++ ": " ++ pyRepr kv.2
  | kv :: kvs => strRepr kv.1 ++ ": " ++ pyRepr kv.2 ++ ", " ++ pyReprEntries kvs

end

/-- Python str() as used by f-string substitution: identity on strings,
repr-like rendering on everything else. -/
def pyToStr : PyVal → String
  | PyVal.pyNone => "None"
  | PyVal.pyBool b => if b then "True" else "False"
  | PyVal.pyInt n => intToStr n
  | PyVal.pyStr s => s
  | v => pyRepr v

/-- Python dict insertion: an existing key keeps its position and takes the
new value, a fresh key is appended. Used when json.loads builds objects. -/
def dictInsert (kvs : List (String × PyVal)) (k : String) (v : PyVal) :
    List (String × PyVal) :=
  if kvs.any (fun kv => kv.1 == k) then
    kvs.map (fun kv => if kv.1 == k then (k, v) else kv)
  else kvs ++ [(k, v)]

/-- Python dict lookup by key. -/
def dictGet (kvs : List (String × PyVal)) (k : String) : Option PyVal :=
  match kvs.find? (fun kv => kv.1 == k) with
  | some kv => some kv.2
  | none => none

/-- Python subscript value[k] with a string key: dict lookup raising
KeyError when absent (whose str() is the repr of the key), TypeError on
every other receiver type. The strings mirror CPython messages. -/
def pySubscript (v : PyVal) (k : String) : Except String PyVal :=
  match v with
  | PyVal.pyDict kvs =>
    match dictGet kvs k with
    | some x => Except.ok x
    | none => Except.error (strRepr k)
  | PyVal.pyStr _ => Except.error "string indices must be integers"
  | PyVal.pyList _ => Except.error "list indices must be integers or slices, not str"
  | PyVal.pyInt _ => Except.error "\x27int\x27 object is not subscriptable"
  | PyVal.pyBool _ => Except.error "\x27bool\x27 object is not subscriptable"
  | PyVal.pyNone => Except.error "\x27NoneType\x27 object is not subscriptable"

/-- Python iteration as performed by the for statement of line 11: lists
yield elements, strings yield one-character strings, dicts yield their keys,
and every other type raises TypeError. -/
def pyIter : PyVal → Except String (List PyVal)
  | PyVal.pyList xs => Except.ok xs
  | PyVal.pyStr s => Except.ok (s.data.map (fun c => PyVal.pyStr (String.mk [c])))
  | PyVal.pyDict kvs => Except.ok (kvs.map (fun kv => PyVal.pyStr kv.1))
  | PyVal.pyInt _ => Except.error "\x27int\x27 object is not iterable"
  | PyVal.pyBool _ => Except.error "\x27bool\x27 object is not iterable"
  | PyVal.pyNone => Except.error "\x27NoneType\x27 object is not iterable"

/-- Whitespace accepted between JSON tokens. -/
def isJsonWs (c : Char) : Bool :=
  c = ' ' || c = '\t' || c = '\n' || c = '\r'

/-- Drop leading JSON whitespace. -/
def skipWs : List Char → List Char
  | [] => []
  | c :: cs => if isJsonWs c then skipWs cs else c :: cs

/-- Parse the body of a JSON string literal after the opening quote,
returning the decoded characters and the remainder after the closing quote.
Unicode escapes of the form backslash-u are outside the model. -/
def parseStrLit : Nat → List Char → Option (List Char × List Char)
  | 0, _ => none
  | _ + 1, [] => none
  | fuel + 1, c :: cs =>
    if c = '"' then some ([], cs)
    else if c = '\\' then
      match cs with
      | [] => none
      | e :: cs2 =>
        let ch? : Option Char :=
          if e = '"' then some '"'
          else if e = '\\' then some '\\'
          else if e = '/' then some '/'
          else if e = 'n' then some '\n'
          else if e = 't' then some '\t'
          else if e = 'r' then some '\r'
          else if e = 'b' then some (Char.ofNat 8)
          else if e = 'f' then some (Char.ofNat 12)
          else none
        match ch? with
        | none => none
        | some ch =>
          match parseStrLit fuel cs2 with
          | none => none
          | some (content, rem) => some (ch :: content, rem)
    else if c.toNat < 32 then none
    else
      match parseStrLit fuel cs with
      | none => none
      | some (content, rem) => some (c :: content, rem)

/-- Split off a maximal run of decimal digits. -/
def takeDigits : List Char → List Char × List Char
  | [] => ([], [])
  | c :: cs =>
    if c.isDigit then
      match takeDigits cs with
      | (ds, rem) => (c :: ds, rem)
    else ([], c :: cs)

/-- Decimal value of a digit run. -/
def digitsToNat (ds : List Char) : Nat :=
  ds.foldl (fun a c => a * 10 + (c.toNat - 48)) 0

/-- A nonempty digit run without a forbidden leading zero. -/
def goodDigits : List Char → Bool
  | [] => false
  | [_] => true
  | d :: _ :: _ => d ≠ '0'

/-- True when the remainder begins a fraction or exponent, which would make
the number a float; floats are outside the model and rejected. -/
def isNumCont : List Char → Bool
  | [] => false
  | c :: _ => c = '.' || c = 'e' || c = 'E'

/-- Parser mode: a single value, the items of an array after the opening
bracket, or the entries of an object after the opening brace. -/
inductive PMode where
  | top
  | arrItems (acc : List PyVal)
  | objItems (acc : List (String × PyVal))

/-- Recursive descent over the token stream with explicit fuel, modelling
the grammar accepted by json.loads (restricted to integer numerals). -/
def parseF : Nat → PMode → List Char → Option (PyVal × List Char)
  | 0, _, _ => none
  | fuel + 1, PMode.top, cs =>
    match cs with
    | [] => none
    | c :: rest =>
      if c = '"' then
        match parseStrLit (rest.length + 1) rest with
        | none => none
        | some (content, rem) => some (PyVal.pyStr (String.mk content), rem)
      else if c = '[' then
        match skipWs rest with
        | ']' :: rem => some (PyVal.pyList [], rem)
        | cs2 => parseF fuel (PMode.arrItems []) cs2
      else if c = lbrace then
        match skipWs rest with
        | [] => none
        | d :: rem =>
          if d = rbrace then some (PyVal.pyDict [], rem)
          else parseF fuel (PMode.objItems []) (d :: rem)
      else if c = 't' then
        match rest with
        | 'r' :: 'u' :: 'e' :: rem => some (PyVal.pyBool true, rem)
        | _ => none
      else if c = 'f' then
        match rest with
        | 'a' :: 'l' :: 's' :: 'e' :: rem => some (PyVal.pyBool false, rem)
        | _ => none
      else if c = 'n' then
        match rest with
        | 'u' :: 'l' :: 'l' :: rem => some (PyVal.pyNone, rem)
        | _ => none
      else if c = '-' then
        match takeDigits rest with
        | (ds, rem) =>
          if goodDigits ds && !(isNumCont rem) then
            some (PyVal.pyInt (-(digitsToNat ds : Int)), rem)
          else none
      else if c.isDigit then
        match takeDigits (c :: rest) with
        | (ds, rem) =>
          if goodDigits ds && !(isNumCont rem) then
            some (PyVal.pyInt (digitsToNat ds), rem)
          else none
      else none
  | fuel + 1, PMode.arrItems acc, cs =>
    match parseF fuel PMode.top (skipWs cs) with
    | none => none
    | some (v, rem) =>
      match skipWs rem with
      | ',' :: rem2 => parseF fuel (PMode.arrItems (acc ++ [v])) (skipWs rem2)
      | ']' :: rem2 => some (PyVal.pyList (acc ++ [v]), rem2)
      | _ => none
  | fuel + 1, PMode.objItems acc, cs =>
    match skipWs cs with
    | [] => none
    | c :: rest =>
      if c = '"' then
        match parseStrLit (rest.length + 1) rest with
        | none => none
        | some (kcontent, rem) =>
          match skipWs rem with
          | ':' :: rem2 =>
            match parseF fuel PMode.top (skipWs rem2) with
            | none => none
            | some (v, rem3) =>
              match skipWs rem3 with
              | ',' :: rem4 =>
                parseF fuel (PMode.objItems (dictInsert acc (String.mk kcontent) v)) rem4
              | d :: rem4 =>
                if d = rbrace then
                  some (PyVal.pyDict (dictInsert acc (String.mk kcontent) v), rem4)
                else none
              | [] => none
          | _ => none
      else none

/-- The json.loads call of line 7: parse the whole body as one JSON value,
demanding that only whitespace follows; on failure the error description
mirrors the CPython message shape. -/
def jsonLoads (s : String) : Except String PyVal :=
  match parseF (2 * s.length + 4) PMode.top (skipWs s.data) with
  | none => Except.error "Expecting value: line 1 column 1 (char 0)"
  | some (v, rem) =>
    match skipWs rem with
    | [] => Except.ok v
    | _ => Except.error "Extra data"

/-- Final observable behaviour: the printed lines in order and the process
exit status. -/
structure ProgResult where
  lines : List String
  exitCode : Nat
deriving DecidableEq

/-- The two fixed header lines printed at lines 9 and 10 of the source. -/
def headerLines : List String := ["Available Free Zones:", "---------------------"]

/-- The f-string of line 12 applied to one element: subscript id, then
subscript name, then substitute both through default string conversion. -/
def formatZone (z : PyVal) : Except String String :=
  match pySubscript z "id" with
  | Except.error e => Except.error e
  | Except.ok i =>
    match pySubscript z "name" with
    | Except.error e => Except.error e
    | Except.ok n => Except.ok ("ID: " ++ pyToStr i ++ " - Name: " ++ pyToStr n)

/-- The record line of an element known to format successfully; the default
is never reached under that assumption. -/
def formatZoneD (z : PyVal) : String :=
  match formatZone z with
  | Except.ok s => s
  | Except.error _ => ""

/-- The print loop of lines 11 and 12: emit one line per element until the
first failure, returning the emitted lines and the failure, if any.
Elements after a failing one are not touched. -/
def printZones : List PyVal → List String × Option String
  | [] => ([], none)
  | z :: zs =>
    match formatZone z with
    | Except.error e => ([], some e)
    | Except.ok line =>
      match printZones zs with
      | (ls, err) => (line :: ls, err)

/-- The body of the try block from the parsed JSON value onward, together
with the except handler: iterate, print headers then records, and on any
raised error print the error line and exit 1. -/
def runOnJson (parsed : Except String PyVal) : ProgResult :=
  match parsed with
  | Except.error e => ⟨["Error: " ++ e], 1⟩
  | Except.ok v =>
    match pyIter v with
    | Except.error e => ⟨headerLines ++ ["Error: " ++ e], 1⟩
    | Except.ok zones =>
      match printZones zones with
      | (ls, none) => ⟨headerLines ++ ls, 0⟩
      | (ls, some e) => ⟨headerLines ++ ls ++ ["Error: " ++ e], 1⟩

/-- The whole script: the fetch outcome feeds json.loads and the printing
pipeline; a fetch failure is caught by the same except handler. -/
def run (fetch : Except String String) : ProgResult :=
  match fetch with
  | Except.error e => ⟨["Error: " ++ e], 1⟩
  | Except.ok body => runOnJson (jsonLoads body)

/-- Response body used as the canonical one-record success input. -/
def jsonBody1 : String := "[\x7b\"id\": 1, \"name\": \"Zone A\"\x7d]"

/-- Parsed form of the single record of jsonBody1. -/
def zRec1 : PyVal := PyVal.pyDict [("id", PyVal.pyInt 1), ("name", PyVal.pyStr "Zone A")]

/-- Response body whose second element lacks the name key. -/
def jsonBody2 : String := "[\x7b\"id\": 1, \"name\": \"A\"\x7d, \x7b\"id\": 2\x7d]"

/-- Parsed form of the first, complete element of jsonBody2. -/
def zRecA : PyVal := PyVal.pyDict [("id", PyVal.pyInt 1), ("name", PyVal.pyStr "A")]

/-- Parsed form of the second element of jsonBody2, missing the name key. -/
def zRecB : PyVal := PyVal.pyDict [("id", PyVal.pyInt 2)]

example : jsonLoads jsonBody1 = Except.ok (PyVal.pyList [zRec1]) := by rfl

example : jsonLoads jsonBody2 = Except.ok (PyVal.pyList [zRecA, zRecB]) := by rfl

example : jsonLoads "\x7b\x7d" = Except.ok (PyVal.pyDict []) := by rfl

example : jsonLoads "\"\"" = Except.ok (PyVal.pyStr "") := by rfl

example : run (Except.ok jsonBody1) =
    ⟨["Available Free Zones:", "---------------------", "ID: 1 - Name: Zone A"], 0⟩ := by rfl

/-- When every element formats, the loop emits one record line per element
in order and reports no failure. -/
theorem printZones_all_ok (zs : List PyVal)
    (h : ∀ z ∈ zs, ∃ s, formatZone z = Except.ok s) :
    printZones zs = (zs.map formatZoneD, none) := by
  induction zs with
  | nil => rfl
  | cons z rest ih =>
    obtain ⟨s, hs⟩ := h z (List.mem_cons_self z rest)
    have ih2 := ih (fun w hw => h w (List.mem_cons_of_mem z hw))
    simp [printZones, hs, ih2, formatZoneD, List.map_cons]

/-- Reading inside a take keeps the original element. -/
theorem getD_take_eq (l : List PyVal) (n i : Nat) (d : PyVal) (h : i < n) :
    (l.take n).getD i d = l.getD i d := by
  induction l generalizing n i with
  | nil => simp
  | cons x xs ih =>
    cases n with
    | zero => omega
    | succ n =>
      cases i with
      | zero => simp
      | succ i => simpa using ih n i (Nat.lt_of_succ_lt_succ h)

/-- When the first k elements format and element k fails, the loop emits
exactly the k leading record lines and reports the failure of element k. -/
theorem printZones_err_at (k : Nat) (zs : List PyVal) (e : String)
    (hk : k < zs.length)
    (hok : ∀ j, j < k → ∃ s, formatZone (zs.getD j PyVal.pyNone) = Except.ok s)
    (herr : formatZone (zs.getD k PyVal.pyNone) = Except.error e) :
    printZones zs = ((zs.take k).map formatZoneD, some e) := by
  induction k generalizing zs with
  | zero =>
    cases zs with
    | nil => simp at hk
    | cons z rest =>
      simp only [List.getD_cons_zero] at herr
      simp [printZones, herr]
  | succ k ih =>
    cases zs with
    | nil => simp at hk
    | cons z rest =>
      obtain ⟨s, hs⟩ := hok 0 (Nat.succ_pos k)
      simp only [List.getD_cons_zero] at hs
      have hk2 : k < rest.length := by
        simp only [List.length_cons] at hk
        omega
      have hok2 : ∀ j, j < k → ∃ s, formatZone (rest.getD j PyVal.pyNone) = Except.ok s := by
        intro j hj
        have := hok (j + 1) (Nat.succ_lt_succ hj)
        simpa using this
      have herr2 : formatZone (rest.getD k PyVal.pyNone) = Except.error e := by
        simpa using herr
      have ih2 := ih rest hk2 hok2 herr2
      simp [printZones, hs, ih2, formatZoneD, List.take, List.map_cons]

/-- A failing element somewhere in the list makes the loop report failure. -/
theorem printZones_has_err (zs : List PyVal)
    (h : ∃ z ∈ zs, ∃ e, formatZone z = Except.error e) :
    ∃ ls e, printZones zs = (ls, some e) := by
  induction zs with
  | nil => simp at h
  | cons z rest ih =>
    by_cases hz : ∃ e, formatZone z = Except.error e
    · obtain ⟨e, he⟩ := hz
      exact ⟨[], e, by simp [printZones, he]⟩
    · obtain ⟨w, hw, e, hwe⟩ := h
      rcases List.mem_cons.mp hw with hwz | hw2
      · exact absurd ⟨e, hwz ▸ hwe⟩ hz
      · obtain ⟨ls, e2, hpe⟩ := ih ⟨w, hw2, e, hwe⟩
        cases hfz : formatZone z with
        | error e3 => exact absurd ⟨e3, hfz⟩ hz
        | ok s => exact ⟨s :: ls, e2, by simp [printZones, hfz, hpe]⟩

/-- An element holding both keys formats to the concatenated record line. -/
theorem formatZone_getTwo (kvs : List (String × PyVal)) (i n : PyVal)
    (h1 : dictGet kvs "id" = some i) (h2 : dictGet kvs "name" = some n) :
    formatZone (PyVal.pyDict kvs) =
      Except.ok ("ID: " ++ pyToStr i ++ " - Name: " ++ pyToStr n) := by
  simp [formatZone, pySubscript, h1, h2]

/-- An element missing either key fails to format. -/
theorem formatZone_missing (kvs : List (String × PyVal))
    (h : dictGet kvs "id" = none ∨ dictGet kvs "name" = none) :
    ∃ e, formatZone (PyVal.pyDict kvs) = Except.error e := by
  rcases h with h | h
  · exact ⟨strRepr "id", by simp [formatZone, pySubscript, h]⟩
  · cases hid : dictGet kvs "id" with
    | none => exact ⟨strRepr "id", by simp [formatZone, pySubscript, hid]⟩
    | some i => exact ⟨strRepr "name", by simp [formatZone, pySubscript, hid, h]⟩

/-- A line built from the error formatting never equals either header. -/
theorem error_line_ne_header (e s : String)
    (hs : s = "Available Free Zones:" ∨ s = "---------------------") :
    "Error: " ++ e ≠ s := by
  intro h
  have h2 := congrArg String.data h
  have h3 : "Error: ".data ++ e.data = s.data := by
    rw [← String.data_append]
    exact h2
  have h4 : "Error: ".data = 'E' :: "rror: ".data := rfl
  rcases hs with rfl | rfl
  · have h5 : "Available Free Zones:".data = 'A' :: "vailable Free Zones:".data := rfl
    rw [h4, h5, List.cons_append] at h3
    have h6 : ('E' : Char) = 'A' := by injection h3
    exact absurd h6 (by decide)
  · have h5 : "---------------------".data = '-' :: "--------------------".data := rfl
    rw [h4, h5, List.cons_append] at h3
    have h6 : ('E' : Char) = '-' := by injection h3
    exact absurd h6 (by decide)

/-- C1: for a well-formed input array of N objects each holding the id and
name keys, run prints exactly 2 + N lines: the two fixed header lines then
the N record lines in the original order, and the exit status is 0. -/
theorem freezone_listing_success (body : String) (zs : List PyVal)
    (h1 : jsonLoads body = Except.ok (PyVal.pyList zs))
    (h2 : ∀ z ∈ zs, ∃ i nm, pySubscript z "id" = Except.ok i ∧
          pySubscript z "name" = Except.ok nm) :
    run (Except.ok body) = ⟨headerLines ++ zs.map formatZoneD, 0⟩ ∧
    (run (Except.ok body)).lines.length = 2 + zs.length := by
  have hok : ∀ z ∈ zs, ∃ s, formatZone z = Except.ok s := by
    intro z hz
    obtain ⟨i, nm, hi, hn⟩ := h2 z hz
    exact ⟨"ID: " ++ pyToStr i ++ " - Name: " ++ pyToStr nm,
      by simp [formatZone, hi, hn]⟩
  have hp := printZones_all_ok zs hok
  have hr : run (Except.ok body) = ⟨headerLines ++ zs.map formatZoneD, 0⟩ := by
    simp [run, h1, runOnJson, pyIter, hp]
  refine ⟨hr, ?_⟩
  rw [hr]
  simp [headerLines]
  omega

/-- C1 witness: the canonical one-record body prints three lines and
exits 0. -/
theorem freezone_listing_success_witness :
    run (Except.ok jsonBody1) =
      ⟨["Available Free Zones:", "---------------------", "ID: 1 - Name: Zone A"], 0⟩ ∧
    (run (Except.ok jsonBody1)).lines.length = 3 := by
  have h := freezone_listing_success jsonBody1 [zRec1] (by rfl)
    (by
      intro z hz
      rw [List.mem_singleton] at hz
      subst hz
      exact ⟨PyVal.pyInt 1, PyVal.pyStr "Zone A", rfl, rfl⟩)
  exact ⟨h.1, h.2⟩

/-- C2: for a response body that is not valid JSON, run prints the single
error line, exits with code 1, and neither header line appears. -/
theorem nonjson_body_error (body e : String)
    (h : jsonLoads body = Except.error e) :
    run (Except.ok body) = ⟨["Error: " ++ e], 1⟩ ∧
    ∀ s ∈ headerLines, s ∉ (run (Except.ok body)).lines := by
  have hr : run (Except.ok body) = ⟨["Error: " ++ e], 1⟩ := by
    simp [run, h, runOnJson]
  refine ⟨hr, ?_⟩
  intro s hs
  rw [hr]
  simp only [List.mem_singleton]
  intro hcontra
  have hs2 : s = "Available Free Zones:" ∨ s = "---------------------" := by
    simpa [headerLines] using hs
  exact error_line_ne_header e s hs2 hcontra.symm

/-- C2 witness: a non-JSON body yields only the error line and exit 1. -/
theorem nonjson_body_error_witness :
    run (Except.ok "not json") =
      ⟨["Error: Expecting value: line 1 column 1 (char 0)"], 1⟩ ∧
    ∀ s ∈ headerLines, s ∉ (run (Except.ok "not json")).lines := by
  have h := nonjson_body_error "not json" "Expecting value: line 1 column 1 (char 0)" (by rfl)
  exact ⟨h.1, h.2⟩

/-- C3 counterexample: the empty JSON object is a valid JSON body whose
top-level value is not an array, yet run prints only the two headers and
exits with status 0 instead of taking the error path. -/
theorem nonarray_top_counterexample :
    jsonLoads "\x7b\x7d" = Except.ok (PyVal.pyDict []) ∧
    (∀ xs : List PyVal, PyVal.pyDict [] ≠ PyVal.pyList xs) ∧
    run (Except.ok "\x7b\x7d") = ⟨headerLines, 0⟩ ∧
    (run (Except.ok "\x7b\x7d")).exitCode = 0 :=
  ⟨rfl, fun _ h => PyVal.noConfusion h, rfl, rfl⟩

/-- C3 amended: a valid JSON body whose top-level value is neither an
array, nor the empty object, nor the empty string makes run print the two
headers followed by an error line and exit with status 1; the two empty
iterables are the only non-array escapes. -/
theorem nonarray_top_failure (body : String) (v : PyVal)
    (h1 : jsonLoads body = Except.ok v)
    (h2 : ∀ xs, v ≠ PyVal.pyList xs)
    (h3 : v ≠ PyVal.pyDict [])
    (h4 : v ≠ PyVal.pyStr "") :
    ∃ e, run (Except.ok body) = ⟨headerLines ++ ["Error: " ++ e], 1⟩ := by
  have hrun : run (Except.ok body) = runOnJson (Except.ok v) := by
    simp [run, h1]
  rw [hrun]
  cases v with
  | pyNone => exact ⟨_, rfl⟩
  | pyBool b => exact ⟨_, rfl⟩
  | pyInt n => exact ⟨_, rfl⟩
  | pyList xs => exact absurd rfl (h2 xs)
  | pyStr s =>
    cases s with
    | mk data =>
      cases data with
      | nil => exact absurd rfl h4
      | cons c cs =>
        refine ⟨"string indices must be integers", ?_⟩
        simp [runOnJson, pyIter, printZones, formatZone, pySubscript]
  | pyDict kvs =>
    cases kvs with
    | nil => exact absurd rfl h3
    | cons kv rest =>
      refine ⟨"string indices must be integers", ?_⟩
      simp [runOnJson, pyIter, printZones, formatZone, pySubscript]

/-- C3 amended witness: the body holding the single numeral 5 is valid
JSON, not an array, and run fails on it with the headers, the iteration
error line and exit status 1. -/
theorem nonarray_top_failure_witness :
    ∃ e, run (Except.ok "5") = ⟨headerLines ++ ["Error: " ++ e], 1⟩ :=
  nonarray_top_failure "5" (PyVal.pyInt 5) (by rfl)
    (fun _ h => PyVal.noConfusion h)
    (fun h => PyVal.noConfusion h)
    (fun h => PyVal.noConfusion h)

/-- C4 counterexample: when the second element lacks the name key, run does
fail with exit 1, but the record line of the first element has already been
printed, so a partial record list is visible in the output. -/
theorem missing_key_counterexample :
    run (Except.ok jsonBody2) =
      ⟨["Available Free Zones:", "---------------------", "ID: 1 - Name: A",
        "Error: \x27name\x27"], 1⟩ ∧
    "ID: 1 - Name: A" ∈ (run (Except.ok jsonBody2)).lines := by
  have h : run (Except.ok jsonBody2) =
      ⟨["Available Free Zones:", "---------------------", "ID: 1 - Name: A",
        "Error: \x27name\x27"], 1⟩ := by rfl
  refine ⟨h, ?_⟩
  rw [h]
  simp

/-- C4 amended: an array in which some element lacks the id key or the
name key makes the whole listing fail with exit status 1 and an error line;
record lines already emitted for elements before the failure remain in the
output. -/
theorem missing_key_failure (body : String) (zs : List PyVal)
    (h1 : jsonLoads body = Except.ok (PyVal.pyList zs))
    (h2 : ∃ z ∈ zs, ∃ kvs, z = PyVal.pyDict kvs ∧
          (dictGet kvs "id" = none ∨ dictGet kvs "name" = none)) :
    (run (Except.ok body)).exitCode = 1 ∧
    ∃ e, ("Error: " ++ e) ∈ (run (Except.ok body)).lines := by
  obtain ⟨z, hz, kvs, hzd, hmiss⟩ := h2
  obtain ⟨e, he⟩ := formatZone_missing kvs hmiss
  obtain ⟨ls, e2, hpz⟩ := printZones_has_err zs ⟨z, hz, e, hzd ▸ he⟩
  have hrun : run (Except.ok body) = ⟨headerLines ++ ls ++ ["Error: " ++ e2], 1⟩ := by
    simp [run, h1, runOnJson, pyIter, hpz]
  rw [hrun]
  exact ⟨rfl, e2, by simp⟩

/-- C4 witness: the two-element body whose second element lacks the name
key fails with exit 1 and an error line. -/
theorem missing_key_failure_witness :
    (run (Except.ok jsonBody2)).exitCode = 1 ∧
    ∃ e, ("Error: " ++ e) ∈ (run (Except.ok jsonBody2)).lines := by
  apply missing_key_failure jsonBody2 [zRecA, zRecB] (by rfl)
  exact ⟨zRecB, by simp, [("id", PyVal.pyInt 2)], rfl, Or.inr rfl⟩

/-- C5: when the first k elements format and element k raises, the output
is exactly the two headers, the k leading record lines in order, then the
error line, with exit status 1; and the result agrees with running on the
array truncated after element k, so later elements are never processed. -/
theorem failfast_partial_output (body : String) (zs : List PyVal) (k : Nat) (e : String)
    (h1 : jsonLoads body = Except.ok (PyVal.pyList zs))
    (hk : k < zs.length)
    (hok : ∀ j, j < k → ∃ s, formatZone (zs.getD j PyVal.pyNone) = Except.ok s)
    (herr : formatZone (zs.getD k PyVal.pyNone) = Except.error e) :
    run (Except.ok body) =
      ⟨headerLines ++ (zs.take k).map formatZoneD ++ ["Error: " ++ e], 1⟩ ∧
    runOnJson (Except.ok (PyVal.pyList (zs.take (k + 1)))) =
      runOnJson (Except.ok (PyVal.pyList zs)) := by
  have hpz := printZones_err_at k zs e hk hok herr
  have hr1 : run (Except.ok body) =
      ⟨headerLines ++ (zs.take k).map formatZoneD ++ ["Error: " ++ e], 1⟩ := by
    simp [run, h1, runOnJson, pyIter, hpz]
  have hk2 : k < (zs.take (k + 1)).length := by
    rw [List.length_take]
    omega
  have hok2 : ∀ j, j < k →
      ∃ s, formatZone ((zs.take (k + 1)).getD j PyVal.pyNone) = Except.ok s := by
    intro j hj
    rw [getD_take_eq zs (k + 1) j PyVal.pyNone (by omega)]
    exact hok j hj
  have herr2 : formatZone ((zs.take (k + 1)).getD k PyVal.pyNone) = Except.error e := by
    rw [getD_take_eq zs (k + 1) k PyVal.pyNone (by omega)]
    exact herr
  have hpz2 := printZones_err_at k (zs.take (k + 1)) e hk2 hok2 herr2
  have htt : (zs.take (k + 1)).take k = zs.take k := by
    rw [List.take_take, Nat.min_eq_left (Nat.le_succ k)]
  rw [htt] at hpz2
  exact ⟨hr1, by simp [runOnJson, pyIter, hpz, hpz2]⟩

/-- C5 witness: on the two-element body the failure hits element 1, the
record of element 0 stays in the output before the error line, and the run
agrees with the run on the array cut after element 1. -/
theorem failfast_partial_output_witness :
    run (Except.ok jsonBody2) =
      ⟨["Available Free Zones:", "---------------------", "ID: 1 - Name: A",
        "Error: \x27name\x27"], 1⟩ ∧
    runOnJson (Except.ok (PyVal.pyList ([zRecA, zRecB].take 2))) =
      runOnJson (Except.ok (PyVal.pyList [zRecA, zRecB])) := by
  have h := failfast_partial_output jsonBody2 [zRecA, zRecB] 1 "\x27name\x27"
    (by rfl) (by simp)
    (by
      intro j hj
      have hj0 : j = 0 := by omega
      subst hj0
      exact ⟨"ID: 1 - Name: A", rfl⟩)
    (by rfl)
  exact ⟨h.1, h.2⟩

/-- C6: a failed subprocess invocation, which check_output surfaces as an
exception whose description reaches the handler, makes run print the single
error line and exit with status 1, through the same generic error path. -/
theorem subprocess_failure_error (msg : String) :
    run (Except.error msg) = ⟨["Error: " ++ msg], 1⟩ := rfl

/-- C7: an element holding both keys is rendered as the exact concatenation
of the two fixed fragments with the default string conversion of the two
values, whatever their type. -/
theorem record_line_format (kvs : List (String × PyVal)) (i n : PyVal)
    (h1 : dictGet kvs "id" = some i) (h2 : dictGet kvs "name" = some n) :
    formatZone (PyVal.pyDict kvs) =
      Except.ok ("ID: " ++ pyToStr i ++ " - Name: " ++ pyToStr n) :=
  formatZone_getTwo kvs i n h1 h2

/-- C7 witness: a numeric id and boolean name go through default string
conversion, with no quoting or escaping. -/
theorem record_line_format_witness :
    formatZone (PyVal.pyDict [("id", PyVal.pyInt 7), ("name", PyVal.pyBool true)]) =
      Except.ok "ID: 7 - Name: True" :=
  record_line_format [("id", PyVal.pyInt 7), ("name", PyVal.pyBool true)]
    (PyVal.pyInt 7) (PyVal.pyBool true) rfl rfl

/-- C8: two invocations whose fetches return the same bytes produce the
same lines and the same exit status; the embedding is a pure function of
the fetch outcome, so there is no hidden state between invocations. -/
theorem deterministic_run (r1 r2 : Except String String) (h : r1 = r2) :
    run r1 = run r2 ∧ (run r1).exitCode = (run r2).exitCode := by
  subst h
  exact ⟨rfl, rfl⟩

/-- C8 witness: two runs on the empty-array body agree. -/
theorem deterministic_run_witness :
    run (Except.ok "[]") = run (Except.ok "[]") ∧
    (run (Except.ok "[]")).exitCode = (run (Except.ok "[]")).exitCode :=
  deterministic_run (Except.ok "[]") (Except.ok "[]") rfl

/-- C9: the empty JSON object and the empty JSON string are valid JSON
bodies with a non-array top-level value on which run nonetheless succeeds:
exactly the two header lines, no error line, exit status 0. -/
theorem empty_iterable_success :
    jsonLoads "\x7b\x7d" = Except.ok (PyVal.pyDict []) ∧
    jsonLoads "\"\"" = Except.ok (PyVal.pyStr "") ∧
    run (Except.ok "\x7b\x7d") = ⟨headerLines, 0⟩ ∧
    run (Except.ok "\"\"") = ⟨headerLines, 0⟩ ∧
    (∀ s ∈ (run (Except.ok "\x7b\x7d")).lines, List.isPrefixOf "Error: ".data s.data = false) ∧
    (∀ s ∈ (run (Except.ok "\"\"")).lines, List.isPrefixOf "Error: ".data s.data = false) := by
  refine ⟨rfl, rfl, rfl, rfl, ?_, ?_⟩ <;> decide

/-- C10: extra fields on an element are ignored; the element renders to the
same line as the two-field element with the same id and name values, and
never causes a failure. -/
theorem extra_fields_ignored (kvs : List (String × PyVal)) (i n : PyVal)
    (h1 : dictGet kvs "id" = some i) (h2 : dictGet kvs "name" = some n) :
    formatZone (PyVal.pyDict kvs) =
      formatZone (PyVal.pyDict [("id", i), ("name", n)]) ∧
    ∃ s, formatZone (PyVal.pyDict kvs) = Except.ok s := by
  have ha := formatZone_getTwo kvs i n h1 h2
  have hb := formatZone_getTwo [("id", i), ("name", n)] i n rfl rfl
  exact ⟨ha.trans hb.symm, _, ha⟩

/-- C10 witness: an element with an extra country field renders like the
minimal element with the same id and name. -/
theorem extra_fields_ignored_witness :
    formatZone (PyVal.pyDict
      [("id", PyVal.pyInt 1), ("name", PyVal.pyStr "Zone A"), ("country", PyVal.pyStr "UAE")]) =
      formatZone (PyVal.pyDict [("id", PyVal.pyInt 1), ("name", PyVal.pyStr "Zone A")]) ∧
    ∃ s, formatZone (PyVal.pyDict
      [("id", PyVal.pyInt 1), ("name", PyVal.pyStr "Zone A"), ("country", PyVal.pyStr "UAE")]) =
      Except.ok s :=
  extra_fields_ignored
    [("id", PyVal.pyInt 1), ("name", PyVal.pyStr "Zone A"), ("country", PyVal.pyStr "UAE")]
    (PyVal.pyInt 1) (PyVal.pyStr "Zone A") rfl rfl
